import Mathlib

/-!
Verification of the bootstrap / event-loop core of the i3 window manager
(`src/main.c`), modelled as a shallow embedding: the xcb connection's
internal event buffer, the libev loop state, and the action traces the
code emits are made explicit; machine side effects (dispatching an
event, flushing, grabbing the server, unlinking a file, ...) are
recorded as constructors of action types.
-/

namespace I3Main

/-- An X11 event as `main.c` sees it: a `response_type` byte (0 means an
error event; the highest bit is stripped with `& 0x7F` before dispatch)
and a sequence number. -/
structure XEvent where
  response_type : Nat
  sequence : Nat
deriving DecidableEq, Repr

/-- Observable actions of the event-handling code in `xcb_prepare_cb`:
logging an X11 error, dispatching an event via `handle_event` with the
masked type, flushing the outgoing queue (`xcb_flush`), and the event
loop entering its blocking wait. -/
inductive Action where
  | x_error (sequence : Nat)
  | handled (type : Nat) (sequence : Nat)
  | flush
  | block
deriving DecidableEq, Repr

/-- One turn of the `while ((event = xcb_poll_for_event(conn)))` body of
`xcb_prepare_cb`: events with `response_type == 0` are logged as errors,
all others are dispatched to `handle_event` with the high bit stripped
(`event->response_type & 0x7F`). -/
def dispatchOne (ev : XEvent) : Action :=
  if ev.response_type = 0 then Action.x_error ev.sequence
  else Action.handled (ev.response_type % 128) ev.sequence

/-- The drain loop of `xcb_prepare_cb`: `xcb_poll_for_event` yields the
buffered events one by one until the buffer is empty. -/
def drainEvents : List XEvent → List Action
  | [] => []
  | ev :: rest => dispatchOne ev :: drainEvents rest

/-- State of the libev main loop as far as the xcb sources are
concerned: the xcb connection's internal event buffer (not visible to
OS readiness), whether the `xcb_prepare` watcher is started, whether an
`ev_feed_event` for it is pending, and the log of actions so far. -/
structure LoopState where
  xbuf : List XEvent
  prepareActive : Bool
  pendingFeed : Bool
  log : List Action
deriving Repr

/-- Embedding of `xcb_prepare_cb`: drain every buffered event,
dispatching each, then `xcb_flush`. -/
def xcb_prepare_cb (s : LoopState) : LoopState :=
  { s with xbuf := [], log := s.log ++ drainEvents s.xbuf ++ [Action.flush] }

/-- Embedding of `xcb_got_event`: the io watcher on the X connection's
file descriptor is a dummy; it does nothing (the work happens in
`xcb_prepare_cb`). -/
def xcb_got_event (s : LoopState) : LoopState := s

/-- libev invokes events queued with `ev_feed_event` at the next
invoke-pending point of the loop, before it can block again; a pending
feed for `xcb_prepare` runs `xcb_prepare_cb`. -/
def invokePending (s : LoopState) : LoopState :=
  if s.pendingFeed then xcb_prepare_cb { s with pendingFeed := false } else s

/-- libev runs every started `ev_prepare` watcher right before the loop
blocks. -/
def runPrepareWatchers (s : LoopState) : LoopState :=
  if s.prepareActive then xcb_prepare_cb s else s

/-- One reactor iteration up to and including the blocking wait:
io callbacks for OS-reported readiness (the dummy `xcb_got_event`, only
when the OS reported the X fd readable), then pending fed events, then
the prepare watchers, then the blocking wait. -/
def loopIterationToBlock (osReady : Bool) (s : LoopState) : LoopState :=
  let s0 := if osReady then xcb_got_event s else s
  let s1 := invokePending s0
  let s2 := runPrepareWatchers s1
  { s2 with log := s2.log ++ [Action.block] }

/-- Embedding of `main_set_x11_cb`: enabling starts the `xcb_prepare`
watcher and feeds it an event (`ev_feed_event`) so that one dispatch
pass is forced; disabling merely stops the watcher. -/
def main_set_x11_cb (enable : Bool) (s : LoopState) : LoopState :=
  if enable then
    { s with prepareActive := true, pendingFeed := true }
  else
    { s with prepareActive := false }

/-- The X11 MapRequest event type code. -/
def XCB_MAP_REQUEST : Nat := 20

/-- Observable actions of the existing-window reconciliation block of
`main` (lines around `xcb_grab_server`). -/
inductive RAction where
  | grab_server
  | aux_sync
  | handled (type : Nat) (sequence : Nat)
  | discarded (sequence : Nat)
  | manage_existing_windows
  | ungrab_server
deriving DecidableEq, Repr

/-- The drain loop inside the grab: error events (`response_type == 0`)
are freed without dispatch; of the rest, only events whose masked type
is `XCB_MAP_REQUEST` are passed to `handle_event`, everything else is
freed (discarded). -/
def reconcileDrain : List XEvent → List RAction
  | [] => []
  | ev :: rest =>
    (if ev.response_type = 0 then RAction.discarded ev.sequence
     else if ev.response_type % 128 = XCB_MAP_REQUEST then
       RAction.handled XCB_MAP_REQUEST ev.sequence
     else RAction.discarded ev.sequence) :: reconcileDrain rest

/-- Embedding of the reconciliation block of `main`: grab the server,
force a round trip with `xcb_aux_sync`, drain all pending events
(dispatching only MapRequests), call `manage_existing_windows(root)`,
and ungrab the server. -/
def reconcileExisting (pending : List XEvent) : List RAction :=
  RAction.grab_server :: RAction.aux_sync :: reconcileDrain pending ++
    [RAction.manage_existing_windows, RAction.ungrab_server]

/-- The lowest file descriptor number used by the socket-activation
protocol (`SD_LISTEN_FDS_START` from `sd-daemon.h`). -/
def SD_LISTEN_FDS_START : Nat := 3

/-- Process-level file-descriptor state: the close-on-exec flag of each
descriptor and the list of descriptors registered (in order) as libev
io watchers with the `ipc_new_client` callback. -/
structure FdTable where
  cloexec : Nat → Bool
  ipcWatchers : List Nat

/-- Embedding of the `fcntl(fd, F_SETFD, flags & ~FD_CLOEXEC)` call:
clears the close-on-exec flag of `fd` and touches nothing else. -/
def clear_cloexec (t : FdTable) (fd : Nat) : FdTable :=
  { t with cloexec := fun g => if g = fd then false else t.cloexec g }

/-- Embedding of `ev_io_init`/`ev_io_start` with `ipc_new_client` on a
socket-activation descriptor. -/
def register_ipc_watcher (t : FdTable) (fd : Nat) : FdTable :=
  { t with ipcWatchers := t.ipcWatchers ++ [fd] }

/-- Body of the socket-activation loop for one descriptor: disable
`FD_CLOEXEC`, then register the descriptor as an IPC source. -/
def activation_step (t : FdTable) (fd : Nat) : FdTable :=
  register_ipc_watcher (clear_cloexec t fd) fd

/-- The `for (fd = SD_LISTEN_FDS_START; fd < SD_LISTEN_FDS_START +
listen_fds; fd++)` loop of `main`. -/
def activation_loop (t : FdTable) (n : Nat) : FdTable :=
  (List.range n).foldl (fun acc i => activation_step acc (SD_LISTEN_FDS_START + i)) t

/-- Embedding of the socket-activation block of `main`: a negative
`sd_listen_fds` result is only logged, a zero count registers nothing,
and a positive count runs the per-descriptor loop. -/
def handle_socket_activation (t : FdTable) (listen_fds : Int) : FdTable :=
  if listen_fds < 0 then t
  else if listen_fds = 0 then t
  else activation_loop t listen_fds.toNat

/-- A descriptor survives `execvp` exactly when its close-on-exec flag
is clear. -/
def survives_exec (t : FdTable) (fd : Nat) : Bool :=
  !(t.cloexec fd)

/-- Observable actions of the layout-restoration block of `main`:
`tree_restore` on the snapshot path, `unlink` of the path, `rmdir` of
its containing directory (via `dirname`, best-effort), and `tree_init`
building a default tree. -/
inductive TreeAction where
  | tree_restore (path : String)
  | unlink (path : String)
  | rmdir_parent (path : String)
  | tree_init
deriving DecidableEq, Repr

/-- Result of the layout-restoration block: the ordered actions taken,
and whether this path terminated the process. -/
structure LayoutResult where
  actions : List TreeAction
  fatal : Bool
deriving Repr

/-- Embedding of the layout-restoration block of `main`, parameterised
by whether `tree_restore` succeeds on a given path: when a layout path
is present, restoration is attempted; `needs_tree_init` is set exactly
when it failed; if the path was marked delete-after-use (`--restart`),
the file is unlinked and its directory removed best-effort regardless
of the restoration outcome; `tree_init` then runs exactly when
restoration did not succeed. No branch exits the process. -/
def layout_phase (restore_ok : String → Bool) (layout_path : Option String)
    (delete_layout_path : Bool) : LayoutResult :=
  match layout_path with
  | none => { actions := [TreeAction.tree_init], fatal := false }
  | some p =>
    let needs_tree_init := !(restore_ok p)
    { actions :=
        [TreeAction.tree_restore p] ++
          (if delete_layout_path then [TreeAction.unlink p, TreeAction.rmdir_parent p]
           else []) ++
          (if needs_tree_init then [TreeAction.tree_init] else []),
      fatal := false }

/-- Value of a decimal digit character, or `none` for any other
character. -/
def digitValue (c : Char) : Option Nat :=
  if 48 ≤ c.toNat ∧ c.toNat ≤ 57 then some (c.toNat - 48) else none

/-- Accumulate decimal digits; any non-digit character makes the whole
parse fail. -/
def parseDigitsAux : List Char → Nat → Option Nat
  | [], acc => some acc
  | c :: cs, acc =>
    match digitValue c with
    | none => none
    | some d => parseDigitsAux cs (acc * 10 + d)

/-- Parse a non-empty decimal integer with an optional leading minus
sign; anything else is malformed. -/
def parseDecimal (cs : List Char) : Option Int :=
  match cs with
  | [] => none
  | c :: rest =>
    if c = '-' then
      match rest with
      | [] => none
      | _ => (parseDigitsAux rest 0).map (fun n => -(n : Int))
    else (parseDigitsAux cs 0).map (fun n => (n : Int))

/-- Modelled from the spec: `parse_long` (defined outside this file, in
the repository's utility code) parses its argument as a decimal
integer, reporting failure on malformed input; per the spec, "a
malformed or absent value is non-fatal". -/
def parse_long (s : String) : Option Int :=
  parseDecimal s.toList

/-- Embedding of `parse_restart_fd`: an absent `_I3_RESTART_FD`
environment value yields -1, a value `parse_long` rejects is logged and
yields -1, and otherwise the parsed descriptor is returned. -/
def parse_restart_fd (env : Option String) : Int :=
  match env with
  | none => -1
  | some s =>
    match parse_long s with
    | none => -1
    | some fd => fd

/-- Observable actions of the restart-fd block of `main`: registering
the descriptor as an already-connected IPC client
(`ipc_new_client_on_fd`) and sending the restart confirmation
(`ipc_confirm_restart`). -/
inductive RestartAction where
  | new_client_on_fd (fd : Int)
  | confirm_restart (fd : Int)
deriving DecidableEq, Repr

/-- Result of the restart-fd block: its actions and whether it
terminated the process. -/
structure RestartPhase where
  actions : List RestartAction
  fatal : Bool
deriving DecidableEq, Repr

/-- Embedding of the restart-fd block of `main`: when
`parse_restart_fd` returned a descriptor other than -1, register it as
a connected IPC client and immediately confirm the restart over it;
otherwise do nothing. Neither branch can fail. -/
def restart_fd_phase (env : Option String) : RestartPhase :=
  let fd := parse_restart_fd env
  if fd ≠ -1 then
    { actions := [RestartAction.new_client_on_fd fd, RestartAction.confirm_restart fd],
      fatal := false }
  else
    { actions := [], fatal := false }

/-- The server-side inputs to the depth/visual/colormap setup block of
`main`: the root screen's default depth, colormap and visual, the
32-bit visual `xcb_aux_find_visual_by_attrs(root_screen, -1, 32)`
returns when the server advertises one, the depth lookup
`xcb_aux_get_depth_of_visual`, and whether the checked
`xcb_create_colormap` request comes back with an error. -/
structure VisualSetupInput where
  screen_root_depth : Nat
  screen_default_colormap : Nat
  screen_default_visual : Nat
  visual32 : Option Nat
  depth_of_visual : Nat → Nat
  colormap_create_error : Bool

/-- Outcome of the depth/visual/colormap setup block: either the chosen
depth, visual id and colormap, or the `exit(EXIT_FAILURE)` the block
performs when colormap creation for the 32-bit visual fails. -/
inductive VisualResult where
  | ok (root_depth : Nat) (visual : Nat) (colormap : Nat)
  | fatal_exit
deriving DecidableEq, Repr

/-- Embedding of the depth/visual/colormap setup block of `main`: if a
32-bit visual is advertised, its depth is adopted, a fresh colormap id
is generated and a colormap is created for it — an error from that
request makes `main` call `exit(EXIT_FAILURE)`; only when no 32-bit
visual is advertised does the block keep the root window's default
depth, visual and colormap. -/
def setup_visual (x : VisualSetupInput) (new_colormap_id : Nat) : VisualResult :=
  match x.visual32 with
  | some v =>
    if x.colormap_create_error then VisualResult.fatal_exit
    else VisualResult.ok (x.depth_of_visual v) v new_colormap_id
  | none =>
    VisualResult.ok x.screen_root_depth x.screen_default_visual x.screen_default_colormap

/-- Signal numbers (Linux, signal(7)). -/
def SIGHUP : Nat := 1

def SIGINT : Nat := 2

def SIGQUIT : Nat := 3

def SIGILL : Nat := 4

def SIGABRT : Nat := 6

def SIGFPE : Nat := 8

def SIGUSR1 : Nat := 10

def SIGSEGV : Nat := 11

def SIGUSR2 : Nat := 12

def SIGPIPE : Nat := 13

def SIGALRM : Nat := 14

def SIGTERM : Nat := 15

/-- The signal numbers `setup_term_handlers` passes to
`ev_signal_init`, in the order of the `signal_watchers` array indices
0 through 5 (note `signal_watchers[4]` and `signal_watchers[5]` are
both initialized with `SIGUSR1`). -/
def term_handler_signals : List Nat :=
  [SIGHUP, SIGINT, SIGALRM, SIGTERM, SIGUSR1, SIGUSR1]

/-- Embedding of `handle_term_signal`: delivery of a terminate-class
signal calls `exit(128 + signum)`, the normal process-exit path, which
runs the `atexit` cleanup handlers. -/
def handle_term_signal_status (signum : Nat) : Nat :=
  128 + signum

/-- Observable actions of `handle_core_signal`: unlinking the shared
memory log (`shm_unlink(shmlogname)`) and re-raising the signal
(`raise(sig)`). -/
inductive CoreAction where
  | shm_unlink (name : String)
  | raise_signal (sig : Nat)
deriving DecidableEq, Repr

/-- Embedding of `handle_core_signal`: if `shmlogname` is non-empty the
SHM log is unlinked, then the signal is re-raised; nothing else
happens. -/
def handle_core_signal (shmlogname : String) (sig : Nat) : List CoreAction :=
  (if shmlogname ≠ "" then [CoreAction.shm_unlink shmlogname] else []) ++
    [CoreAction.raise_signal sig]

/-- One `sigaction` installation performed by the
`disable_signalhandler` branch of `main` for the core-dump-class
signals: `sa_flags = SA_NODEFER | SA_RESETHAND | SA_SIGINFO`, so the
default action is restored before the handler runs. -/
structure SigactionInstall where
  sig : Nat
  sa_nodefer : Bool
  sa_resethand : Bool
  sa_siginfo : Bool
deriving DecidableEq, Repr

/-- The `sigaction` calls `main` performs for all signals with default
action "Core": SIGQUIT, SIGILL, SIGABRT, SIGFPE, SIGSEGV, each with
`SA_NODEFER | SA_RESETHAND | SA_SIGINFO`. -/
def core_signal_installs : List SigactionInstall :=
  [SIGQUIT, SIGILL, SIGABRT, SIGFPE, SIGSEGV].map
    (fun s => SigactionInstall.mk s true true true)

/-- A signal's disposition in the process's signal table. -/
inductive Disposition where
  | dfl
  | ign
  | hnd
deriving DecidableEq, Repr

/-- The process-wide signal disposition table. -/
structure SignalTable where
  dispo : Nat → Disposition

/-- Embedding of `signal(sig, ...)`: replace one signal's disposition. -/
def signal_set (t : SignalTable) (sig : Nat) (d : Disposition) : SignalTable :=
  { dispo := fun s => if s = sig then d else t.dispo s }

/-- Embedding of the `signal(SIGPIPE, SIG_IGN)` call in `main`. -/
def ignore_sigpipe (t : SignalTable) : SignalTable :=
  signal_set t SIGPIPE Disposition.ign

/-- Outcome of a write to an IPC client that has already disconnected:
the OS delivers SIGPIPE; under the default disposition that terminates
the process, otherwise the write merely fails with EPIPE. -/
inductive WriteOutcome where
  | terminated
  | write_error_epipe
deriving DecidableEq, Repr

/-- OS semantics of writing to a closed peer under a given signal
table. -/
def write_to_disconnected_client (t : SignalTable) : WriteOutcome :=
  match t.dispo SIGPIPE with
  | Disposition.dfl => WriteOutcome.terminated
  | Disposition.ign => WriteOutcome.write_error_epipe
  | Disposition.hnd => WriteOutcome.write_error_epipe

/-- The tail of `main` in source order after the reconciliation block:
signal-handler setup, terminate-handler setup, the `signal(SIGPIPE,
SIG_IGN)` call, the autostart loops, the `atexit(i3_exit)`
registration, and finally `ev_loop(main_loop, 0)`. -/
inductive MainStep where
  | setup_signal_handler
  | setup_term_handlers
  | ignore_sigpipe_step
  | run_autostarts
  | register_atexit
  | ev_loop
deriving DecidableEq, Repr

/-- The final statements of `main`, in order. -/
def main_tail : List MainStep :=
  [MainStep.setup_signal_handler, MainStep.setup_term_handlers,
    MainStep.ignore_sigpipe_step, MainStep.run_autostarts,
    MainStep.register_atexit, MainStep.ev_loop]

theorem drainEvents_eq_map (buf : List XEvent) :
    drainEvents buf = buf.map dispatchOne := by
  induction buf with
  | nil => rfl
  | cons ev rest ih => simp [drainEvents, ih]

/-- C1: with the `xcb_prepare` watcher started (the steady state after
`main` starts it), every reactor iteration drains the xcb buffer
completely before the blocking wait, whatever the OS readiness said:
the buffer is empty afterwards, and the action log gains exactly the
dispatch of every buffered event in order, then the flush, then the
block — so every event queued before the blocking wait is dispatched
before that wait executes. -/
theorem drain_before_every_block (osReady : Bool) (buf : List XEvent)
    (log : List Action) :
    (loopIterationToBlock osReady (LoopState.mk buf true false log)).xbuf = [] ∧
    (loopIterationToBlock osReady (LoopState.mk buf true false log)).log =
      log ++ drainEvents buf ++ [Action.flush, Action.block] ∧
    ∀ ev, ev ∈ buf →
      dispatchOne ev ∈ log ++ drainEvents buf := by
  refine ⟨?_, ?_, ?_⟩
  · cases osReady <;>
      simp [loopIterationToBlock, xcb_got_event, invokePending, runPrepareWatchers,
        xcb_prepare_cb]
  · cases osReady <;>
      simp [loopIterationToBlock, xcb_got_event, invokePending, runPrepareWatchers,
        xcb_prepare_cb]
  · intro ev hev
    refine List.mem_append.mpr (Or.inr ?_)
    rw [drainEvents_eq_map]
    exact List.mem_map_of_mem dispatchOne hev

/-- Witness for `drain_before_every_block` at a concrete buffer. -/
theorem drain_before_every_block_witness :
    dispatchOne (XEvent.mk 20 7) ∈
      ([] : List Action) ++ drainEvents [XEvent.mk 20 7] := by
  have h := drain_before_every_block true [XEvent.mk 20 7] []
  exact h.2.2 (XEvent.mk 20 7) (by simp)

/-- C2: disabling the main X11 callback only stops the `xcb_prepare`
watcher and changes nothing else; re-enabling restarts the watcher and
feeds it an event, and invoking that fed event dispatches every event
that accumulated in the buffer while the source was disabled (none is
lost or delayed past the re-enable). -/
theorem set_x11_cb_reenable_dispatches (s : LoopState) :
    main_set_x11_cb false s =
      { s with prepareActive := false } ∧
    (main_set_x11_cb true s).prepareActive = true ∧
    (main_set_x11_cb true s).pendingFeed = true ∧
    (main_set_x11_cb true s).xbuf = s.xbuf ∧
    (invokePending (main_set_x11_cb true s)).xbuf = [] ∧
    (invokePending (main_set_x11_cb true s)).log =
      s.log ++ drainEvents s.xbuf ++ [Action.flush] := by
  refine ⟨rfl, rfl, rfl, rfl, ?_, ?_⟩ <;>
    simp [main_set_x11_cb, invokePending, xcb_prepare_cb]

/-- C3: reconciliation performs, in order, the exclusive server grab,
the round-trip sync, one drain action per pending event — dispatching
an event to the normal handler exactly when its masked type is
MapRequest and discarding it otherwise — then the enumeration and
adoption of all windows under the root, and finally the ungrab. -/
theorem reconcile_order_and_filter (pending : List XEvent) :
    reconcileExisting pending =
      RAction.grab_server :: RAction.aux_sync ::
        pending.map (fun ev =>
          if ev.response_type ≠ 0 ∧ ev.response_type % 128 = XCB_MAP_REQUEST
          then RAction.handled XCB_MAP_REQUEST ev.sequence
          else RAction.discarded ev.sequence) ++
        [RAction.manage_existing_windows, RAction.ungrab_server] ∧
    (reconcileExisting pending).head? = some RAction.grab_server ∧
    (reconcileExisting pending).getLast? = some RAction.ungrab_server := by
  refine ⟨?_, rfl, ?_⟩
  · have hdrain : ∀ evs : List XEvent, reconcileDrain evs =
        evs.map (fun ev =>
          if ev.response_type ≠ 0 ∧ ev.response_type % 128 = XCB_MAP_REQUEST
          then RAction.handled XCB_MAP_REQUEST ev.sequence
          else RAction.discarded ev.sequence) := by
      intro evs
      induction evs with
      | nil => rfl
      | cons ev rest ih =>
        simp only [reconcileDrain, ih, List.map_cons, List.cons.injEq, and_true]
        by_cases h0 : ev.response_type = 0
        · simp [h0, XCB_MAP_REQUEST]
        · by_cases hm : ev.response_type % 128 = XCB_MAP_REQUEST <;> simp [h0, hm]
    rw [reconcileExisting, hdrain]
  · have hsplit : reconcileExisting pending =
        (RAction.grab_server :: RAction.aux_sync :: reconcileDrain pending ++
          [RAction.manage_existing_windows]) ++ [RAction.ungrab_server] := by
      simp [reconcileExisting]
    rw [hsplit, List.getLast?_concat]

theorem activation_step_cloexec (t : FdTable) (fd g : Nat) :
    (activation_step t fd).cloexec g = if g = fd then false else t.cloexec g := rfl

theorem activation_step_watchers (t : FdTable) (fd : Nat) :
    (activation_step t fd).ipcWatchers = t.ipcWatchers ++ [fd] := rfl

theorem activation_loop_spec (n : Nat) : ∀ (t : FdTable) (fd : Nat),
    SD_LISTEN_FDS_START ≤ fd → fd < SD_LISTEN_FDS_START + n →
    (activation_loop t n).cloexec fd = false ∧ fd ∈ (activation_loop t n).ipcWatchers := by
  induction n with
  | zero =>
    intro t fd h1 h2
    omega
  | succ m ih =>
    intro t fd h1 h2
    have hstep : activation_loop t (m + 1) =
        activation_step (activation_loop t m) (SD_LISTEN_FDS_START + m) := by
      unfold activation_loop
      rw [List.range_succ, List.foldl_append]
      rfl
    by_cases hlt : fd < SD_LISTEN_FDS_START + m
    · obtain ⟨hc, hw⟩ := ih t fd h1 hlt
      constructor
      · rw [hstep, activation_step_cloexec]
        by_cases he : fd = SD_LISTEN_FDS_START + m <;> simp [he, hc]
      · rw [hstep, activation_step_watchers]
        exact List.mem_append.mpr (Or.inl hw)
    · have he : fd = SD_LISTEN_FDS_START + m := by omega
      constructor
      · rw [hstep, activation_step_cloexec]
        simp [he]
      · rw [hstep, activation_step_watchers]
        simp [he]

/-- C4: for every socket-activation descriptor, numbered from
`SD_LISTEN_FDS_START` up to the base plus the supervisor-provided
count, the socket-activation block clears its close-on-exec flag and
registers it as an IPC listening source, so it survives a subsequent
re-exec; a count of zero is valid and registers nothing. -/
theorem socket_activation_clears_cloexec_and_registers (t : FdTable) (n fd : Nat)
    (h1 : SD_LISTEN_FDS_START ≤ fd) (h2 : fd < SD_LISTEN_FDS_START + n) :
    (handle_socket_activation t ((n : Int))).cloexec fd = false ∧
    fd ∈ (handle_socket_activation t ((n : Int))).ipcWatchers ∧
    survives_exec (handle_socket_activation t ((n : Int))) fd = true ∧
    handle_socket_activation t 0 = t := by
  have hn : 0 < n := by omega
  have hpos : handle_socket_activation t ((n : Int)) = activation_loop t n := by
    unfold handle_socket_activation
    rw [if_neg (by omega), if_neg (by omega)]
    simp
  obtain ⟨hc, hw⟩ := activation_loop_spec n t fd h1 h2
  refine ⟨hpos ▸ hc, hpos ▸ hw, ?_, rfl⟩
  rw [survives_exec, hpos, hc]
  rfl

/-- Witness for `socket_activation_clears_cloexec_and_registers`: two
activation descriptors, checking descriptor 4. -/
theorem socket_activation_witness :
    (handle_socket_activation (FdTable.mk (fun _ => true) []) ((2 : Int))).cloexec 4 = false ∧
    4 ∈ (handle_socket_activation (FdTable.mk (fun _ => true) []) ((2 : Int))).ipcWatchers ∧
    survives_exec (handle_socket_activation (FdTable.mk (fun _ => true) []) ((2 : Int))) 4 = true ∧
    handle_socket_activation (FdTable.mk (fun _ => true) []) 0 = FdTable.mk (fun _ => true) [] :=
  socket_activation_clears_cloexec_and_registers (FdTable.mk (fun _ => true) []) 2 4
    (by decide) (by decide)

/-- C5: with a snapshot path supplied, restoration is attempted first;
the phase is never fatal; a failed restoration is followed by building
the default tree while a successful one is not; and when the path is
marked delete-after-use, the file is unlinked and its directory removed
whether or not restoration succeeded. -/
theorem layout_phase_restores_or_falls_back (restore_ok : String → Bool)
    (layout_path : Option String) (delete_layout_path : Bool) (p : String)
    (hp : layout_path = some p) :
    (layout_phase restore_ok layout_path delete_layout_path).fatal = false ∧
    (layout_phase restore_ok layout_path delete_layout_path).actions.head? =
      some (TreeAction.tree_restore p) ∧
    (restore_ok p = false →
      TreeAction.tree_init ∈ (layout_phase restore_ok layout_path delete_layout_path).actions) ∧
    (restore_ok p = true →
      TreeAction.tree_init ∉ (layout_phase restore_ok layout_path delete_layout_path).actions) ∧
    (delete_layout_path = true →
      TreeAction.unlink p ∈ (layout_phase restore_ok layout_path delete_layout_path).actions ∧
      TreeAction.rmdir_parent p ∈ (layout_phase restore_ok layout_path delete_layout_path).actions) := by
  subst hp
  refine ⟨rfl, rfl, ?_, ?_, ?_⟩
  · intro hfail
    cases delete_layout_path <;> simp [layout_phase, hfail]
  · intro hok
    cases delete_layout_path <;> simp [layout_phase, hok]
  · intro hdel
    subst hdel
    cases hr : restore_ok p <;> simp [layout_phase, hr]

/-- Witness for `layout_phase_restores_or_falls_back`: a missing
snapshot (`restore_ok` is constantly false) with delete-after-use. -/
theorem layout_phase_witness :
    (layout_phase (fun _ => false) (some "snap") true).fatal = false ∧
    (layout_phase (fun _ => false) (some "snap") true).actions.head? =
      some (TreeAction.tree_restore "snap") ∧
    ((fun (_ : String) => false) "snap" = false →
      TreeAction.tree_init ∈ (layout_phase (fun _ => false) (some "snap") true).actions) ∧
    ((fun (_ : String) => false) "snap" = true →
      TreeAction.tree_init ∉ (layout_phase (fun _ => false) (some "snap") true).actions) ∧
    (true = true →
      TreeAction.unlink "snap" ∈ (layout_phase (fun _ => false) (some "snap") true).actions ∧
      TreeAction.rmdir_parent "snap" ∈ (layout_phase (fun _ => false) (some "snap") true).actions) :=
  layout_phase_restores_or_falls_back (fun _ => false) (some "snap") true "snap" rfl

/-- C6: an absent restart-fd environment variable, or one that does not
parse as a decimal integer, is non-fatal and merely skips the restart
confirmation; a parsed descriptor (other than the -1 sentinel) is
registered as an already-connected IPC client and a restart
confirmation is immediately sent over it. -/
theorem restart_fd_behaviour (env : Option String) :
    (env = none → restart_fd_phase env = RestartPhase.mk [] false) ∧
    (∀ s, env = some s → parse_long s = none →
      restart_fd_phase env = RestartPhase.mk [] false) ∧
    (∀ s fd, env = some s → parse_long s = some fd → fd ≠ -1 →
      restart_fd_phase env =
        RestartPhase.mk
          [RestartAction.new_client_on_fd fd, RestartAction.confirm_restart fd]
          false) := by
  refine ⟨?_, ?_, ?_⟩
  · intro h
    subst h
    rfl
  · intro s h hparse
    subst h
    simp [restart_fd_phase, parse_restart_fd, hparse]
  · intro s fd h hparse hne
    subst h
    simp [restart_fd_phase, parse_restart_fd, hparse, hne]

/-- Witness for `restart_fd_behaviour`: a valid descriptor 7 in the
environment, and separately a malformed value. -/
theorem restart_fd_behaviour_witness :
    restart_fd_phase (some "7") =
      RestartPhase.mk
        [RestartAction.new_client_on_fd 7, RestartAction.confirm_restart 7] false ∧
    restart_fd_phase (some "bogus") = RestartPhase.mk [] false := by
  constructor
  · exact (restart_fd_behaviour (some "7")).2.2 "7" 7 rfl (by decide) (by decide)
  · exact (restart_fd_behaviour (some "bogus")).2.1 "bogus" rfl (by decide)

/-- C7 counterexample: a server advertising a 32-bit visual whose
colormap creation fails makes the bootstrap call `exit(EXIT_FAILURE)`,
so inability to use the higher-depth configuration does terminate the
process, contrary to the claim. -/
theorem setup_visual_counterexample :
    setup_visual
      (VisualSetupInput.mk 24 32 70 (some 42) (fun _ => 32) true) 99 =
      VisualResult.fatal_exit := rfl

/-- C7 (amended): if the server advertises a 32-bit visual it is
preferred — its depth and a freshly created colormap are adopted when
colormap creation succeeds, and a colormap-creation error terminates
the bootstrap with `exit(EXIT_FAILURE)`; only when no 32-bit visual is
advertised does the process fall back to the root window's default
depth, visual and colormap, and that fallback never causes a fatal
exit. -/
theorem setup_visual_prefers_32bit (x : VisualSetupInput) (new_colormap_id : Nat) :
    (x.visual32 = none →
      setup_visual x new_colormap_id =
        VisualResult.ok x.screen_root_depth x.screen_default_visual
          x.screen_default_colormap ∧
      setup_visual x new_colormap_id ≠ VisualResult.fatal_exit) ∧
    (∀ v, x.visual32 = some v → x.colormap_create_error = false →
      setup_visual x new_colormap_id =
        VisualResult.ok (x.depth_of_visual v) v new_colormap_id) ∧
    (∀ v, x.visual32 = some v → x.colormap_create_error = true →
      setup_visual x new_colormap_id = VisualResult.fatal_exit) := by
  refine ⟨?_, ?_, ?_⟩
  · intro hnone
    simp [setup_visual, hnone]
  · intro v hv herr
    simp [setup_visual, hv, herr]
  · intro v hv herr
    simp [setup_visual, hv, herr]

/-- Witness for `setup_visual_prefers_32bit`: a server with a 32-bit
visual and a successful colormap creation. -/
theorem setup_visual_prefers_32bit_witness :
    setup_visual
      (VisualSetupInput.mk 24 32 70 (some 42) (fun _ => 32) false) 99 =
      VisualResult.ok 32 42 99 :=
  (setup_visual_prefers_32bit
    (VisualSetupInput.mk 24 32 70 (some 42) (fun _ => 32) false) 99).2.1 42 rfl rfl

/-- C8: contrary to the claim that exactly one loop-integrated handler
is installed per terminate-disposition signal, `setup_term_handlers`
initializes two of its six watchers with `SIGUSR1` and none with
`SIGUSR2` (whose default disposition is also terminate); delivery still
exits through `exit(128 + signum)`. -/
theorem term_handlers_duplicate_sigusr1 :
    term_handler_signals.count SIGUSR1 = 2 ∧
    term_handler_signals.count SIGUSR2 = 0 ∧
    term_handler_signals.length = 6 ∧
    handle_term_signal_status SIGINT = 130 := by
  decide

/-- C9: the core-dump-class handler's only actions are unlinking the
shared-memory log artifact — and that exactly when one exists — and
re-raising the signal, which is always its final action; every
installation for these signals carries `SA_RESETHAND`, so the default
action is restored and the OS core dump is never suppressed. -/
theorem core_signal_handler_minimal (shmlogname : String) (sig : Nat) :
    (handle_core_signal shmlogname sig).getLast? =
      some (CoreAction.raise_signal sig) ∧
    (∀ a, a ∈ handle_core_signal shmlogname sig →
      a = CoreAction.shm_unlink shmlogname ∨ a = CoreAction.raise_signal sig) ∧
    (CoreAction.shm_unlink shmlogname ∈ handle_core_signal shmlogname sig ↔
      shmlogname ≠ "") ∧
    (∀ inst, inst ∈ core_signal_installs → inst.sa_resethand = true) := by
  refine ⟨?_, ?_, ?_, ?_⟩
  · by_cases h : shmlogname = "" <;> simp [handle_core_signal, h]
  · intro a ha
    by_cases h : shmlogname = "" <;> simp [handle_core_signal, h] at ha <;> tauto
  · by_cases h : shmlogname = "" <;> simp [handle_core_signal, h]
  · intro inst hinst
    simp only [core_signal_installs, List.mem_map] at hinst
    obtain ⟨s, _, rfl⟩ := hinst
    rfl

/-- Witness for `core_signal_handler_minimal` at a concrete SHM log
name and SIGSEGV. -/
theorem core_signal_handler_minimal_witness :
    (handle_core_signal "/i3-log" SIGSEGV).getLast? =
      some (CoreAction.raise_signal SIGSEGV) ∧
    (CoreAction.raise_signal SIGSEGV = CoreAction.shm_unlink "/i3-log" ∨
      CoreAction.raise_signal SIGSEGV = CoreAction.raise_signal SIGSEGV) := by
  have h := core_signal_handler_minimal "/i3-log" SIGSEGV
  refine ⟨h.1, ?_⟩
  exact h.2.1 (CoreAction.raise_signal SIGSEGV) (by simp [handle_core_signal])

/-- C10: `main` sets SIGPIPE to ignored before entering the event loop
(`ignore_sigpipe_step` precedes `ev_loop` in `main_tail`), so after the
setup a write to an already-disconnected IPC client surfaces as an
EPIPE write error rather than terminating the manager. -/
theorem sigpipe_ignored_before_loop (t : SignalTable) :
    (ignore_sigpipe t).dispo SIGPIPE = Disposition.ign ∧
    write_to_disconnected_client (ignore_sigpipe t) =
      WriteOutcome.write_error_epipe ∧
    main_tail.indexOf MainStep.ignore_sigpipe_step <
      main_tail.indexOf MainStep.ev_loop := by
  refine ⟨rfl, rfl, by decide⟩

end I3Main
